import Mathlib

/-!
Verification of the webdata-cli core against its specification.

The development shallowly embeds the relevant parts of `webdata.py`:

* the cleanup policy engine (`AutoCleaner.cleanup_old_files`,
  `cleanup_by_count`, `cleanup_by_size`, `auto_cleanup`);
* the correlation-id request/response channel
  (`WebDataExtractor.send_command`);
* the capture fan-out (`capture_page_info`, `capture_dom`,
  `capture_network` and the `capture_page` orchestration);
* the remote command interpreter (`execute_selenium_command`).

Files are records of path id, modification time and size; directories are
lists of such records.  The websocket transport is an infinite stream of
inbound JSON values together with a cursor.  The Selenium driver is an
oracle record whose operations return `Except`, standing for calls that may
raise.  Python exceptions are modelled by `Except` values; each `try/except`
boundary of the source becomes an explicit `match` on the embedded body.
-/

/-- A JSON value, as produced by `json.loads`. -/
inductive JVal where
  | null : JVal
  | b : Bool → JVal
  | n : Int → JVal
  | s : String → JVal
  | arr : List JVal → JVal
  | obj : List (String × JVal) → JVal
  deriving Repr

/-! ## Cleanup policy engine (`AutoCleaner`) -/

/-- A filesystem entry observed during a cleanup pass: its path (an id),
modification time (seconds) and size (bytes). -/
structure FileInfo where
  path : Nat
  mtime : Int
  size : Nat
  deriving DecidableEq, Repr

/-- Ordering used by `files.sort(key=lambda x: x.stat().st_mtime)`:
oldest (smallest mtime) first. -/
def mtimeLe (a b : FileInfo) : Prop := a.mtime ≤ b.mtime

instance : DecidableRel mtimeLe := fun a b => inferInstanceAs (Decidable (a.mtime ≤ b.mtime))

instance : IsTotal FileInfo mtimeLe := ⟨fun a b => Int.le_total a.mtime b.mtime⟩

instance : IsTrans FileInfo mtimeLe := ⟨fun _ _ _ h₁ h₂ => le_trans h₁ h₂⟩

/-- Stable sort by modification time, oldest first (Python `list.sort` with
an mtime key). -/
def sortByMtime (l : List FileInfo) : List FileInfo := List.insertionSort mtimeLe l

/-- Aggregate size of a list of files, in bytes. -/
def totalSize (l : List FileInfo) : Nat := (l.map (·.size)).sum

/-- One directory of `cleanup_old_files`: delete every file with
`st_mtime < cutoff_time`.  Returns (remaining files, deleted files). -/
def cleanup_old_files_dir (cutoff : Int) (dir : List FileInfo) :
    List FileInfo × List FileInfo :=
  (dir.filter (fun f => !(f.mtime < cutoff)), dir.filter (fun f => f.mtime < cutoff))

/-- Python slice `l[:-k]`.  For `k = 0` this is `l[:0] = []`, not the whole
list — the source relies on this slice in `cleanup_by_count`. -/
def pySliceDropLast (l : List α) (k : Nat) : List α :=
  if k = 0 then [] else l.take (l.length - k)

/-- One directory of `cleanup_by_count`: if the directory holds more than
`max_files` files, sort oldest-first and delete `files[:-max_files]`.
Returns (remaining files, deleted files); the remaining files are the
untouched suffix of the sorted listing (a directory is an unordered set,
so re-listing it as the sorted remainder is faithful). -/
def cleanup_by_count_dir (max_files : Nat) (dir : List FileInfo) :
    List FileInfo × List FileInfo :=
  if dir.length ≤ max_files then (dir, [])
  else
    let sorted := sortByMtime dir
    let files_to_remove := pySliceDropLast sorted max_files
    (sorted.drop files_to_remove.length, files_to_remove)

/-- The deletion loop of `cleanup_by_size`: walk the oldest-first listing,
stopping as soon as the running size is within the bound, otherwise
deleting the head and subtracting its size.  Returns (remaining files,
deleted files). -/
def sizeLoop (max_bytes : Nat) : List FileInfo → Nat → List FileInfo × List FileInfo
  | [], _ => ([], [])
  | f :: rest, current =>
    if current ≤ max_bytes then (f :: rest, [])
    else
      let r := sizeLoop max_bytes rest (current - f.size)
      (r.1, f :: r.2)

/-- One directory of `cleanup_by_size`: if the aggregate size exceeds
`max_size_mb * 1024 * 1024`, delete oldest files until it does not. -/
def cleanup_by_size_dir (max_size_mb : Nat) (dir : List FileInfo) :
    List FileInfo × List FileInfo :=
  let max_size_bytes := max_size_mb * 1024 * 1024
  if dir.isEmpty then (dir, [])
  else
    let total := totalSize dir
    if total ≤ max_size_bytes then (dir, [])
    else sizeLoop max_size_bytes (sortByMtime dir) total

/-- Apply one per-directory pass to every watched directory
(`for directory in [self.data_dir, self.logs_dir]`), concatenating the
deleted files in order. -/
def runPass (p : List FileInfo → List FileInfo × List FileInfo) :
    List (List FileInfo) → List (List FileInfo) × List FileInfo
  | [] => ([], [])
  | d :: ds =>
    let r := p d
    let rs := runPass p ds
    (r.1 :: rs.1, r.2 ++ rs.2)

/-- The cleanup configuration (`load_config` keys that drive a run). -/
structure CleanupConfig where
  auto_cleanup_enabled : Bool
  cleanup_interval_hours : Nat
  max_file_age_hours : Int
  max_files_count : Nat
  max_total_size_mb : Nat
  deriving Repr

/-- Result of one `auto_cleanup` invocation: the directories after the run,
the deduplicated list of deleted files, the byte total, and the lines
appended to `auto_cleanup.log` (each recording file count and byte total;
the wall-clock timestamp is abstracted). -/
structure ACResult where
  dirs : List (List FileInfo)
  cleaned : List FileInfo
  bytes : Nat
  log : List (Nat × Nat)
  deriving Repr

/-- `AutoCleaner.auto_cleanup`: if cleanup is enabled, run the age pass,
then the count pass, then the size pass over the watched directories,
union the deleted files, and append one log line when anything was
deleted. -/
def auto_cleanup (cfg : CleanupConfig) (now : Int) (dirs : List (List FileInfo)) :
    ACResult :=
  if !cfg.auto_cleanup_enabled then ⟨dirs, [], 0, []⟩
  else
    let cutoff := now - cfg.max_file_age_hours * 3600
    let age := runPass (cleanup_old_files_dir cutoff) dirs
    let cnt := runPass (cleanup_by_count_dir cfg.max_files_count) age.1
    let sz := runPass (cleanup_by_size_dir cfg.max_total_size_mb) cnt.1
    let all_cleaned_files := (age.2 ++ cnt.2 ++ sz.2).dedup
    let total := totalSize age.2 + totalSize cnt.2 + totalSize sz.2
    ⟨sz.1, all_cleaned_files, total,
      if all_cleaned_files.isEmpty then [] else [(all_cleaned_files.length, total)]⟩

/-! ## Cleanup engine lemmas -/

theorem totalSize_perm {l l' : List FileInfo} (h : List.Perm l l') :
    totalSize l = totalSize l' := by
  unfold totalSize
  exact (h.map (·.size)).sum_eq

theorem totalSize_sortByMtime (l : List FileInfo) :
    totalSize (sortByMtime l) = totalSize l :=
  totalSize_perm (List.perm_insertionSort mtimeLe l)

theorem sortByMtime_length (l : List FileInfo) :
    (sortByMtime l).length = l.length :=
  (List.perm_insertionSort mtimeLe l).length_eq

theorem sizeLoop_totalSize_le (max_bytes : Nat) :
    ∀ (l : List FileInfo) (current : Nat), current = totalSize l →
      totalSize (sizeLoop max_bytes l current).1 ≤ max_bytes := by
  intro l
  induction l with
  | nil =>
    intro current _
    simp [sizeLoop, totalSize]
  | cons f rest ih =>
    intro current hcur
    by_cases h : current ≤ max_bytes
    · simp [sizeLoop, h, ← hcur]
    · have hrest : current - f.size = totalSize rest := by
        subst hcur
        simp [totalSize, List.map_cons, List.sum_cons]
      simpa [sizeLoop, h] using ih (current - f.size) hrest

theorem sizeLoop_kept_subset (max_bytes : Nat) :
    ∀ (l : List FileInfo) (current : Nat), (sizeLoop max_bytes l current).1 ⊆ l := by
  intro l
  induction l with
  | nil => intro current; simp [sizeLoop]
  | cons f rest ih =>
    intro current
    by_cases h : current ≤ max_bytes
    · simp [sizeLoop, h]
    · simp only [sizeLoop, if_neg h]
      exact fun x hx => List.mem_cons_of_mem f (ih (current - f.size) hx)

theorem sizeLoop_kept_length_le (max_bytes : Nat) :
    ∀ (l : List FileInfo) (current : Nat),
      (sizeLoop max_bytes l current).1.length ≤ l.length := by
  intro l
  induction l with
  | nil => intro current; simp [sizeLoop]
  | cons f rest ih =>
    intro current
    by_cases h : current ≤ max_bytes
    · simp [sizeLoop, h]
    · simp only [sizeLoop, if_neg h]
      exact Nat.le_succ_of_le (ih (current - f.size))

theorem cleanup_by_size_dir_totalSize_le (max_size_mb : Nat) (dir : List FileInfo) :
    totalSize (cleanup_by_size_dir max_size_mb dir).1 ≤ max_size_mb * 1024 * 1024 := by
  unfold cleanup_by_size_dir
  by_cases hemp : dir.isEmpty
  · have : dir = [] := List.isEmpty_iff.mp hemp
    subst this
    simp [totalSize]
  · simp only [hemp, if_false]
    by_cases hle : totalSize dir ≤ max_size_mb * 1024 * 1024
    · simp [hle]
    · simp only [hle, if_false]
      exact sizeLoop_totalSize_le _ (sortByMtime dir) (totalSize dir)
        (totalSize_sortByMtime dir).symm

theorem cleanup_by_size_dir_subset (max_size_mb : Nat) (dir : List FileInfo) :
    (cleanup_by_size_dir max_size_mb dir).1 ⊆ dir := by
  unfold cleanup_by_size_dir
  by_cases hemp : dir.isEmpty
  · simp [hemp]
  · simp only [hemp, if_false]
    by_cases hle : totalSize dir ≤ max_size_mb * 1024 * 1024
    · simp [hle]
    · simp only [hle, if_false]
      intro x hx
      exact ((List.perm_insertionSort mtimeLe dir).subset)
        (sizeLoop_kept_subset _ _ _ hx)

theorem cleanup_by_size_dir_length_le (max_size_mb : Nat) (dir : List FileInfo) :
    (cleanup_by_size_dir max_size_mb dir).1.length ≤ dir.length := by
  unfold cleanup_by_size_dir
  by_cases hemp : dir.isEmpty
  · simp [hemp]
  · simp only [hemp, if_false]
    by_cases hle : totalSize dir ≤ max_size_mb * 1024 * 1024
    · simp [hle]
    · simp only [hle, if_false]
      calc (sizeLoop (max_size_mb * 1024 * 1024) (sortByMtime dir) (totalSize dir)).1.length
          ≤ (sortByMtime dir).length := sizeLoop_kept_length_le _ _ _
        _ = dir.length := sortByMtime_length dir

theorem cleanup_by_count_dir_length_le (max_files : Nat) (hmax : 1 ≤ max_files)
    (dir : List FileInfo) :
    (cleanup_by_count_dir max_files dir).1.length ≤ max_files := by
  unfold cleanup_by_count_dir
  by_cases hle : dir.length ≤ max_files
  · simp [hle]
  · have hk : max_files ≠ 0 := Nat.one_le_iff_ne_zero.mp hmax
    simp only [hle, if_false, pySliceDropLast, hk, if_neg hk, List.length_take,
      List.length_drop, sortByMtime_length]
    omega

theorem cleanup_by_count_dir_subset (max_files : Nat) (dir : List FileInfo) :
    (cleanup_by_count_dir max_files dir).1 ⊆ dir := by
  unfold cleanup_by_count_dir
  by_cases hle : dir.length ≤ max_files
  · simp [hle]
  · simp only [hle, if_false]
    intro x hx
    exact (List.perm_insertionSort mtimeLe dir).subset (List.drop_subset _ _ hx)

theorem cleanup_old_files_dir_kept_mtime (cutoff : Int) (dir : List FileInfo) :
    ∀ f ∈ (cleanup_old_files_dir cutoff dir).1, cutoff ≤ f.mtime := by
  intro f hf
  have := List.of_mem_filter hf
  simpa using this

theorem cleanup_old_files_dir_kept_subset (cutoff : Int) (dir : List FileInfo) :
    (cleanup_old_files_dir cutoff dir).1 ⊆ dir :=
  (List.filter_sublist _).subset

theorem runPass_fst (p : List FileInfo → List FileInfo × List FileInfo) :
    ∀ dirs : List (List FileInfo), (runPass p dirs).1 = dirs.map (fun d => (p d).1) := by
  intro dirs
  induction dirs with
  | nil => simp [runPass]
  | cons d ds ih => simp [runPass, ih]

theorem runPass_snd (p : List FileInfo → List FileInfo × List FileInfo) :
    ∀ dirs : List (List FileInfo),
      (runPass p dirs).2 = (dirs.map (fun d => (p d).2)).flatten := by
  intro dirs
  induction dirs with
  | nil => simp [runPass]
  | cons d ds ih => simp [runPass, ih]

theorem cleanup_old_files_dir_idem (cutoff : Int) (d : List FileInfo) :
    (cleanup_old_files_dir cutoff (cleanup_old_files_dir cutoff d).1).2 = [] := by
  unfold cleanup_old_files_dir
  simp [List.filter_filter]

theorem cleanup_pipeline_bounds (cutoff : Int) (max_files max_mb : Nat)
    (hmax : 1 ≤ max_files) (d₀ : List FileInfo) :
    ((cleanup_by_size_dir max_mb
        ((cleanup_by_count_dir max_files
          ((cleanup_old_files_dir cutoff d₀).1)).1)).1).length ≤ max_files ∧
    totalSize ((cleanup_by_size_dir max_mb
        ((cleanup_by_count_dir max_files
          ((cleanup_old_files_dir cutoff d₀).1)).1)).1) ≤ max_mb * 1024 * 1024 ∧
    ∀ f ∈ (cleanup_by_size_dir max_mb
        ((cleanup_by_count_dir max_files
          ((cleanup_old_files_dir cutoff d₀).1)).1)).1, cutoff ≤ f.mtime := by
  refine ⟨?_, cleanup_by_size_dir_totalSize_le _ _, ?_⟩
  · exact le_trans (cleanup_by_size_dir_length_le _ _)
      (cleanup_by_count_dir_length_le _ hmax _)
  · intro f hf
    exact cleanup_old_files_dir_kept_mtime _ _ f
      (cleanup_by_count_dir_subset _ _ (cleanup_by_size_dir_subset _ _ hf))

/-! ## Claim theorems: cleanup engine -/

/-- C1 (amended: `max_files_count ≥ 1`).  After a combined `auto_cleanup`
run with cleanup enabled, every watched directory holds at most
`max_files_count` files, its aggregate size is at most
`max_total_size_mb` megabytes, and no remaining file is older than
`max_file_age_hours` before the run. -/
theorem c1_auto_cleanup_bounds (cfg : CleanupConfig) (now : Int)
    (dirs : List (List FileInfo))
    (hen : cfg.auto_cleanup_enabled = true) (hmax : 1 ≤ cfg.max_files_count) :
    ∀ d ∈ (auto_cleanup cfg now dirs).dirs,
      d.length ≤ cfg.max_files_count ∧
      totalSize d ≤ cfg.max_total_size_mb * 1024 * 1024 ∧
      ∀ f ∈ d, now - cfg.max_file_age_hours * 3600 ≤ f.mtime := by
  intro d hd
  simp only [auto_cleanup, hen, Bool.not_true, Bool.false_eq_true, if_false] at hd
  rw [runPass_fst, runPass_fst, runPass_fst, List.map_map, List.map_map] at hd
  obtain ⟨d₀, _, rfl⟩ := List.mem_map.mp hd
  exact cleanup_pipeline_bounds (now - cfg.max_file_age_hours * 3600)
    cfg.max_files_count cfg.max_total_size_mb hmax d₀

/-- Witness for C1 at a concrete configuration and directory state. -/
theorem c1_auto_cleanup_bounds_witness :
    ([(⟨0, 0, 5⟩ : FileInfo)].length ≤ 100) ∧
    (totalSize [(⟨0, 0, 5⟩ : FileInfo)] ≤ 100 * 1024 * 1024) ∧
    ((0 : Int) - 48 * 3600 ≤ (⟨0, 0, 5⟩ : FileInfo).mtime) := by
  have h := c1_auto_cleanup_bounds ⟨true, 24, 48, 100, 100⟩ 0 [[⟨0, 0, 5⟩]]
    rfl (by decide) [⟨0, 0, 5⟩] (by decide)
  exact ⟨h.1, h.2.1, h.2.2 ⟨0, 0, 5⟩ (by decide)⟩

/-- C1 fails as stated at `max_files_count = 0`: with cleanup enabled and a
single fresh small file, the combined run leaves the file in place
(`files[:-0]` is empty), so the directory holds more than 0 files. -/
theorem c1_counterexample :
    (auto_cleanup ⟨true, 24, 48, 0, 100⟩ 0 [[⟨0, 0, 1⟩]]).dirs = [[⟨0, 0, 1⟩]] ∧
    ¬ ([(⟨0, 0, 1⟩ : FileInfo)].length ≤ 0) := by decide

/-- C4 (amended: `max_files ≥ 1`).  The count pass deletes nothing when the
directory holds at most `max_files` files; otherwise it deletes exactly the
oldest-by-mtime excess — the deleted files are the first
`length - max_files` entries of the oldest-first listing, every deleted
file is at least as old as every kept file, exactly `max_files` files
remain, and together they are a permutation of the original directory; at
`max_files + 1` files exactly one file is deleted. -/
theorem c4_cleanup_by_count (max_files : Nat) (dir : List FileInfo)
    (hmax : 1 ≤ max_files) :
    (dir.length ≤ max_files → cleanup_by_count_dir max_files dir = (dir, [])) ∧
    (max_files < dir.length →
      (cleanup_by_count_dir max_files dir).2
          = (sortByMtime dir).take (dir.length - max_files) ∧
      (cleanup_by_count_dir max_files dir).1
          = (sortByMtime dir).drop (dir.length - max_files) ∧
      (cleanup_by_count_dir max_files dir).1.length = max_files ∧
      List.Perm
        ((cleanup_by_count_dir max_files dir).2 ++ (cleanup_by_count_dir max_files dir).1)
        dir ∧
      ∀ f ∈ (cleanup_by_count_dir max_files dir).2,
        ∀ g ∈ (cleanup_by_count_dir max_files dir).1, f.mtime ≤ g.mtime) ∧
    (dir.length = max_files + 1 → (cleanup_by_count_dir max_files dir).2.length = 1) := by
  have hlen := sortByMtime_length dir
  have hk0 : max_files ≠ 0 := Nat.one_le_iff_ne_zero.mp hmax
  refine ⟨fun hle => by simp [cleanup_by_count_dir, hle], fun hgt => ?_, fun heq => ?_⟩
  · have hnle : ¬ dir.length ≤ max_files := not_le.mpr hgt
    have hrem : (cleanup_by_count_dir max_files dir).2
        = (sortByMtime dir).take (dir.length - max_files) := by
      simp [cleanup_by_count_dir, hnle, pySliceDropLast, hk0, hlen]
    have hkept : (cleanup_by_count_dir max_files dir).1
        = (sortByMtime dir).drop (dir.length - max_files) := by
      simp only [cleanup_by_count_dir, hnle, if_false, pySliceDropLast, hk0,
        List.length_take, hlen]
      congr 1
      omega
    refine ⟨hrem, hkept, ?_, ?_, ?_⟩
    · rw [hkept, List.length_drop, hlen]
      omega
    · rw [hrem, hkept, List.take_append_drop]
      exact List.perm_insertionSort _ _
    · intro f hf g hg
      have hs : List.Pairwise mtimeLe (sortByMtime dir) :=
        List.sorted_insertionSort mtimeLe dir
      rw [← List.take_append_drop (dir.length - max_files) (sortByMtime dir)] at hs
      rw [hrem] at hf
      rw [hkept] at hg
      exact (List.pairwise_append.mp hs).2.2 f hf g hg
  · have hnle : ¬ dir.length ≤ max_files := by omega
    have hrem : (cleanup_by_count_dir max_files dir).2
        = (sortByMtime dir).take (dir.length - max_files) := by
      simp [cleanup_by_count_dir, hnle, pySliceDropLast, hk0, hlen]
    rw [hrem, List.length_take, hlen]
    omega

/-- Witness for C4: two files, `max_files = 1`, so exactly one deletion. -/
theorem c4_cleanup_by_count_witness :
    (cleanup_by_count_dir 1 [⟨0, 0, 1⟩, ⟨1, 5, 1⟩]).2.length = 1 :=
  (c4_cleanup_by_count 1 [⟨0, 0, 1⟩, ⟨1, 5, 1⟩] (by decide)).2.2 (by decide)

/-- C4 fails as stated at `max_files = 0`: one file is more than the bound,
yet the pass deletes nothing and more than 0 files remain. -/
theorem c4_counterexample :
    0 < ([(⟨0, 0, 1⟩ : FileInfo)]).length ∧
    (cleanup_by_count_dir 0 [⟨0, 0, 1⟩]).2 = [] ∧
    (cleanup_by_count_dir 0 [⟨0, 0, 1⟩]).1.length ≠ 0 := by decide

/-- The five-file scenario of the spec: ages 1, 10, 30, 50 and 70 hours
(mtimes relative to `now = 0`), each of size 10 bytes. -/
def c5ScenarioDir : List FileInfo :=
  [⟨1, -3600, 10⟩, ⟨2, -36000, 10⟩, ⟨3, -108000, 10⟩, ⟨4, -180000, 10⟩, ⟨5, -252000, 10⟩]

/-- C5 (amended scenario).  The age pass deletes exactly the files whose
modification time is strictly below the cutoff and keeps exactly the
others; in the five-file scenario with `maxAgeHours = 48` it removes the
50-hour and 70-hour files, leaving 3 (not only the 70-hour file). -/
theorem c5_cleanup_old_files (cutoff : Int) (dir : List FileInfo) (f : FileInfo) :
    (f ∈ (cleanup_old_files_dir cutoff dir).2 ↔ f ∈ dir ∧ f.mtime < cutoff) ∧
    (f ∈ (cleanup_old_files_dir cutoff dir).1 ↔ f ∈ dir ∧ cutoff ≤ f.mtime) ∧
    (cleanup_old_files_dir (0 - 48 * 3600) c5ScenarioDir).2
        = [⟨4, -180000, 10⟩, ⟨5, -252000, 10⟩] ∧
    (cleanup_old_files_dir (0 - 48 * 3600) c5ScenarioDir).1.length = 3 := by
  refine ⟨?_, ?_, by decide, by decide⟩
  · simp [cleanup_old_files_dir, List.mem_filter]
  · simp [cleanup_old_files_dir, List.mem_filter, not_lt]

/-- C5 fails as stated on its own scenario: the pass removes two files
(the 50-hour file is also older than 48 hours), not one, and 3 remain,
not 4. -/
theorem c5_counterexample :
    (cleanup_old_files_dir (0 - 48 * 3600) c5ScenarioDir).2.length = 2 ∧
    (cleanup_old_files_dir (0 - 48 * 3600) c5ScenarioDir).1.length ≠ 4 := by decide

/-- C6.  The age pass is idempotent: run twice at the same instant over any
directory state, the second run deletes nothing. -/
theorem c6_age_pass_idempotent (cutoff : Int) (dirs : List (List FileInfo)) :
    (runPass (cleanup_old_files_dir cutoff)
      (runPass (cleanup_old_files_dir cutoff) dirs).1).2 = [] := by
  rw [runPass_snd, runPass_fst, List.map_map, List.flatten_eq_nil_iff]
  intro l hl
  obtain ⟨d₀, _, rfl⟩ := List.mem_map.mp hl
  exact cleanup_old_files_dir_idem cutoff d₀

/-- C7 (amended).  With cleanup enabled, a completed `auto_cleanup` run
appends exactly one log line — recording the number of files removed and
the byte total — when at least one file was removed, and appends nothing
when the run removed no files. -/
theorem c7_auto_cleanup_log (cfg : CleanupConfig) (now : Int)
    (dirs : List (List FileInfo)) (hen : cfg.auto_cleanup_enabled = true) :
    (auto_cleanup cfg now dirs).log =
      if (auto_cleanup cfg now dirs).cleaned.isEmpty then []
      else [((auto_cleanup cfg now dirs).cleaned.length,
             (auto_cleanup cfg now dirs).bytes)] := by
  simp only [auto_cleanup, hen, Bool.not_true, Bool.false_eq_true, if_false]

/-- Witness for C7: an enabled run that deletes one stale file logs one
line; the statement is the theorem's conclusion at that input. -/
theorem c7_auto_cleanup_log_witness :
    (auto_cleanup ⟨true, 24, 48, 100, 100⟩ 0 [[⟨0, -200000, 5⟩]]).log =
      if (auto_cleanup ⟨true, 24, 48, 100, 100⟩ 0 [[⟨0, -200000, 5⟩]]).cleaned.isEmpty
      then []
      else [((auto_cleanup ⟨true, 24, 48, 100, 100⟩ 0 [[⟨0, -200000, 5⟩]]).cleaned.length,
             (auto_cleanup ⟨true, 24, 48, 100, 100⟩ 0 [[⟨0, -200000, 5⟩]]).bytes)] :=
  c7_auto_cleanup_log ⟨true, 24, 48, 100, 100⟩ 0 [[⟨0, -200000, 5⟩]] rfl

/-- C7 fails as stated: an enabled run over empty directories completes but
appends no log line. -/
theorem c7_counterexample :
    (⟨true, 24, 48, 100, 100⟩ : CleanupConfig).auto_cleanup_enabled = true ∧
    (auto_cleanup ⟨true, 24, 48, 100, 100⟩ 0 [[], []]).log.length = 0 := by decide

/-! ## Correlation-id request/response channel (`WebDataExtractor`) -/

/-- An outgoing DevTools message `{id, method, params}` as serialized and
written by `send_command`. -/
structure SentMessage where
  id : Nat
  method : String
  params : JVal
  deriving Repr

/-- The state of a `WebDataExtractor`.  `websocket` is `none` when
`connect` never succeeded; otherwise it holds the transport, modelled as
the infinite sequence of inbound messages (already parsed by `json.loads`)
together with the cursor `recvCount` counting how many have been received.
`sent` records every message written to the transport. -/
structure ExtractorState where
  message_id : Nat
  websocket : Option (Nat → JVal)
  recvCount : Nat
  sent : List SentMessage

/-- `WebDataExtractor.send_command`: raise "Not connected to Chrome" when no
websocket is held; otherwise increment `message_id`, write
`{id, method, params or {}}`, then receive and parse the next inbound
message — whatever it is — and return it. -/
def send_command (s : ExtractorState) (method : String) (params : Option JVal) :
    Except String JVal × ExtractorState :=
  match s.websocket with
  | none => (.error "Not connected to Chrome", s)
  | some stream =>
    let newId := s.message_id + 1
    let msg : SentMessage := ⟨newId, method, params.getD (JVal.obj [])⟩
    (.ok (stream s.recvCount),
     { s with
        message_id := newId
        recvCount := s.recvCount + 1
        sent := s.sent ++ [msg] })

/-- A sequence of sequential `send_command` calls, each awaited before the
next is issued. -/
def sendSeq (s : ExtractorState) :
    List (String × Option JVal) → List (Except String JVal) × ExtractorState
  | [] => ([], s)
  | c :: cs =>
    let r := send_command s c.1 c.2
    let rs := sendSeq r.2 cs
    (r.1 :: rs.1, rs.2)

/-- The correlation id carried by a JSON payload, when it has one. -/
def jGetId (v : JVal) : Option Int :=
  match v with
  | .obj fields =>
    match fields.lookup "id" with
    | some (.n i) => some i
    | _ => none
  | _ => none

theorem sendSeq_sent_extends :
    ∀ (cmds : List (String × Option JVal)) (s : ExtractorState),
      ∃ t, (sendSeq s cmds).2.sent = s.sent ++ t := by
  intro cmds
  induction cmds with
  | nil => intro s; exact ⟨[], by simp [sendSeq]⟩
  | cons c cs ih =>
    intro s
    cases hw : s.websocket with
    | none =>
      obtain ⟨t, ht⟩ := ih s
      exact ⟨t, by simpa [sendSeq, send_command, hw] using ht⟩
    | some stream =>
      obtain ⟨t, ht⟩ := ih ⟨s.message_id + 1, some stream, s.recvCount + 1,
        s.sent ++ [⟨s.message_id + 1, c.1, c.2.getD (JVal.obj [])⟩]⟩
      refine ⟨⟨s.message_id + 1, c.1, c.2.getD (JVal.obj [])⟩ :: t, ?_⟩
      simp only [sendSeq, send_command, hw] at ht ⊢
      simp only [List.append_assoc] at ht
      simpa using ht

theorem sendSeq_results_get :
    ∀ (cmds : List (String × Option JVal)) (s : ExtractorState)
      (stream : Nat → JVal) (i : Nat),
      s.websocket = some stream → i < cmds.length →
      (sendSeq s cmds).1.get? i = some (.ok (stream (s.recvCount + i))) := by
  intro cmds
  induction cmds with
  | nil => intro s stream i _ hi; simp at hi
  | cons c cs ih =>
    intro s stream i hconn hi
    cases i with
    | zero => simp [sendSeq, send_command, hconn]
    | succ j =>
      have hj : j < cs.length := by simpa using hi
      have h2 := ih ⟨s.message_id + 1, some stream, s.recvCount + 1,
          s.sent ++ [⟨s.message_id + 1, c.1, c.2.getD (JVal.obj [])⟩]⟩
        stream j rfl hj
      simp only [sendSeq, send_command, hconn, List.get?_cons_succ]
      rw [show s.recvCount + (j + 1) = s.recvCount + 1 + j by omega]
      exact h2

theorem sendSeq_sent_get :
    ∀ (cmds : List (String × Option JVal)) (s : ExtractorState)
      (stream : Nat → JVal) (i : Nat) (mth : String) (prm : Option JVal),
      s.websocket = some stream → cmds.get? i = some (mth, prm) →
      (sendSeq s cmds).2.sent.get? (s.sent.length + i)
        = some ⟨s.message_id + i + 1, mth, prm.getD (JVal.obj [])⟩ := by
  intro cmds
  induction cmds with
  | nil => intro s stream i mth prm _ hi; simp at hi
  | cons c cs ih =>
    intro s stream i mth prm hconn hi
    cases i with
    | zero =>
      have hc : c = (mth, prm) := by simpa using hi
      subst hc
      obtain ⟨t, ht⟩ := sendSeq_sent_extends cs ⟨s.message_id + 1, some stream,
        s.recvCount + 1, s.sent ++ [⟨s.message_id + 1, mth, prm.getD (JVal.obj [])⟩]⟩
      simp only [sendSeq, send_command, hconn]
      rw [ht]
      simp only [List.append_assoc, Nat.add_zero]
      rw [List.get?_eq_getElem?, List.getElem?_append_right (by omega)]
      simp
    | succ j =>
      have hj : cs.get? j = some (mth, prm) := by simpa using hi
      have h2 := ih ⟨s.message_id + 1, some stream, s.recvCount + 1,
          s.sent ++ [⟨s.message_id + 1, c.1, c.2.getD (JVal.obj [])⟩]⟩
        stream j mth prm rfl hj
      simp only [sendSeq, send_command, hconn]
      simp only [List.length_append, List.length_cons, List.length_nil] at h2
      rw [show s.sent.length + (j + 1) = s.sent.length + 1 + j by omega]
      rw [show s.message_id + (j + 1) + 1 = s.message_id + 1 + j + 1 by omega]
      simpa using h2

/-! ## Claim theorems: correlation-id channel -/

/-- C2 (amended: the transport must echo each request's id).  For any
sequence of sequential `send_command` calls on a connected channel whose
inbound messages each carry the id of the corresponding request (in-order,
one response per request), the payload returned by the `i`-th call is the
`i`-th inbound message, the `i`-th message written carries id
`message_id + i + 1`, and the returned payload carries exactly that id —
round-trip identity. -/
theorem c2_send_command_roundtrip (s : ExtractorState) (stream : Nat → JVal)
    (cmds : List (String × Option JVal))
    (hconn : s.websocket = some stream)
    (hecho : ∀ k, jGetId (stream (s.recvCount + k))
        = some ((s.message_id : Int) + k + 1)) :
    ∀ (i : Nat) (mth : String) (prm : Option JVal), cmds.get? i = some (mth, prm) →
      (sendSeq s cmds).1.get? i = some (.ok (stream (s.recvCount + i))) ∧
      ((sendSeq s cmds).2.sent.drop s.sent.length).get? i
          = some ⟨s.message_id + i + 1, mth, prm.getD (JVal.obj [])⟩ ∧
      jGetId (stream (s.recvCount + i)) = some ((s.message_id + i + 1 : Nat) : Int) := by
  intro i mth prm hcmd
  have hi : i < cmds.length := by
    by_contra h
    rw [List.get?_eq_none.mpr (not_lt.mp h)] at hcmd
    exact Option.noConfusion hcmd
  refine ⟨sendSeq_results_get cmds s stream i hconn hi, ?_, ?_⟩
  · rw [List.get?_eq_getElem?, List.getElem?_drop, ← List.get?_eq_getElem?]
    exact sendSeq_sent_get cmds s stream i mth prm hconn hcmd
  · rw [hecho i]
    norm_cast

/-- A transport that echoes ids correctly starting from a fresh state. -/
def c2EchoStream : Nat → JVal := fun k => JVal.obj [("id", JVal.n (k + 1))]

/-- A freshly connected extractor over the echoing transport. -/
def c2EchoState : ExtractorState := ⟨0, some c2EchoStream, 0, []⟩

/-- Witness for C2: one call on the echoing transport returns the payload
carrying the id it was sent with. -/
theorem c2_send_command_roundtrip_witness :
    (sendSeq c2EchoState [("Page.enable", none)]).1.get? 0
        = some (.ok (c2EchoStream (c2EchoState.recvCount + 0))) ∧
    ((sendSeq c2EchoState [("Page.enable", none)]).2.sent.drop
        c2EchoState.sent.length).get? 0
        = some ⟨c2EchoState.message_id + 0 + 1, "Page.enable",
                (none : Option JVal).getD (JVal.obj [])⟩ ∧
    jGetId (c2EchoStream (c2EchoState.recvCount + 0))
        = some ((c2EchoState.message_id + 0 + 1 : Nat) : Int) :=
  c2_send_command_roundtrip c2EchoState c2EchoStream [("Page.enable", none)] rfl
    (fun k => by simp [c2EchoState, c2EchoStream, jGetId, List.lookup])
    0 "Page.enable" none rfl

/-- A transport whose next inbound message carries id 999 regardless of the
request. -/
def c2BadState : ExtractorState :=
  ⟨0, some (fun _ => JVal.obj [("id", JVal.n 999)]), 0, []⟩

/-- C2 fails as stated: `send_command` performs no id check, so when the
transport delivers a message with id 999 in answer to the request sent with
id 1, the returned payload carries 999, not 1. -/
theorem c2_counterexample :
    (sendSeq c2BadState [("Page.enable", none)]).1
        = [.ok (JVal.obj [("id", JVal.n 999)])] ∧
    (sendSeq c2BadState [("Page.enable", none)]).2.sent
        = [⟨1, "Page.enable", JVal.obj []⟩] ∧
    jGetId (JVal.obj [("id", JVal.n 999)]) ≠ some 1 :=
  ⟨rfl, rfl, by decide⟩

/-- C3.  If the channel was never successfully established
(`websocket` is `none`), `send_command` fails with the
"Not connected to Chrome" condition, leaves the state untouched and in
particular writes no message to the transport. -/
theorem c3_send_command_not_connected (s : ExtractorState) (method : String)
    (params : Option JVal) (h : s.websocket = none) :
    send_command s method params = (.error "Not connected to Chrome", s) := by
  simp [send_command, h]

/-- Witness for C3 on a concrete never-connected state. -/
theorem c3_send_command_not_connected_witness :
    send_command ⟨0, none, 0, []⟩ "Page.enable" none
      = (.error "Not connected to Chrome", ⟨0, none, 0, []⟩) :=
  c3_send_command_not_connected ⟨0, none, 0, []⟩ "Page.enable" none rfl

/-! ## Capture fan-out (`capture_page_info`, `capture_dom`, `capture_network`)

The JavaScript expressions handed to `Runtime.evaluate` are opaque payloads
for the channel; they are abbreviated to short descriptive strings here. -/

/-- Parameters of the page-info `Runtime.evaluate` call. -/
def pageInfoParams : JVal :=
  JVal.obj [("expression", JVal.s "collect title, url, timestamp, viewport, userAgent")]

/-- Parameters of the inner-text `Runtime.evaluate` call. -/
def innerTextParams : JVal :=
  JVal.obj [("expression", JVal.s "document.body.innerText")]

/-- Parameters of the links `Runtime.evaluate` call. -/
def linksParams : JVal :=
  JVal.obj [("expression", JVal.s "collect anchors: text, href, title")]

/-- Parameters of the images `Runtime.evaluate` call. -/
def imagesParams : JVal :=
  JVal.obj [("expression", JVal.s "collect images: src, alt, title, width, height")]

/-- Parameters of the network `Runtime.evaluate` call. -/
def networkParams : JVal :=
  JVal.obj [("expression", JVal.s "performance resource entries: name, type, size, duration, startTime")]

/-- Python `d.get(k, dflt)`: raises (AttributeError) when the value is not a
dict, otherwise returns the entry or the default. -/
def jGet (v : JVal) (k : String) (dflt : JVal) : Except String JVal :=
  match v with
  | .obj fields => .ok ((fields.lookup k).getD dflt)
  | _ => .error "AttributeError: no attribute get"

/-- Python `d[k]`: raises (KeyError or TypeError) when the key is missing or
the value is not a dict. -/
def jIndex (v : JVal) (k : String) : Except String JVal :=
  match v with
  | .obj fields =>
    match fields.lookup k with
    | some x => .ok x
    | none => .error ("KeyError: " ++ k)
  | _ => .error "TypeError: object is not subscriptable"

/-- Body of `capture_page_info` (the code inside its `try`): one
`Runtime.evaluate` round trip, then `result.get("result", {}).get("value", {})`. -/
def capturePageInfoBody (s : ExtractorState) :
    Except (String × ExtractorState) (JVal × ExtractorState) :=
  match send_command s "Runtime.evaluate" (some pageInfoParams) with
  | (.error e, s1) => .error (e, s1)
  | (.ok r, s1) =>
    match (do
        let a ← jGet r "result" (JVal.obj [])
        jGet a "value" (JVal.obj [])) with
    | .error e => .error (e, s1)
    | .ok v => .ok (v, s1)

/-- `WebDataExtractor.capture_page_info`: any exception in the body is
caught and replaced by the empty mapping. -/
def capture_page_info (s : ExtractorState) : JVal × ExtractorState :=
  match capturePageInfoBody s with
  | .error (_, s') => (JVal.obj [], s')
  | .ok r => r

/-- Body of `capture_dom` (the code inside its `try`): four sequential
channel calls — document root, outer HTML for that root, inner text,
links and images — folded into a flat record with per-field defaults. -/
def captureDomBody (s : ExtractorState) :
    Except (String × ExtractorState) (JVal × ExtractorState) :=
  match send_command s "DOM.getDocument" none with
  | (.error e, s1) => .error (e, s1)
  | (.ok doc, s1) =>
    match (do
        let r ← jIndex doc "result"
        let root ← jIndex r "root"
        jIndex root "nodeId") with
    | .error e => .error (e, s1)
    | .ok rootNodeId =>
      match send_command s1 "DOM.getOuterHTML" (some (JVal.obj [("nodeId", rootNodeId)])) with
      | (.error e, s2) => .error (e, s2)
      | (.ok htmlR, s2) =>
        match send_command s2 "Runtime.evaluate" (some innerTextParams) with
        | (.error e, s3) => .error (e, s3)
        | (.ok textR, s3) =>
          match send_command s3 "Runtime.evaluate" (some linksParams) with
          | (.error e, s4) => .error (e, s4)
          | (.ok linksR, s4) =>
            match send_command s4 "Runtime.evaluate" (some imagesParams) with
            | (.error e, s5) => .error (e, s5)
            | (.ok imagesR, s5) =>
              match (do
                  let ha ← jGet htmlR "result" (JVal.obj [])
                  let hv ← jGet ha "value" (JVal.s "")
                  let ta ← jGet textR "result" (JVal.obj [])
                  let tv ← jGet ta "value" (JVal.s "")
                  let la ← jGet linksR "result" (JVal.obj [])
                  let lv ← jGet la "value" (JVal.arr [])
                  let ia ← jGet imagesR "result" (JVal.obj [])
                  let iv ← jGet ia "value" (JVal.arr [])
                  pure (JVal.obj
                    [("html", hv), ("text", tv), ("links", lv), ("images", iv)])) with
              | .error e => .error (e, s5)
              | .ok v => .ok (v, s5)

/-- `WebDataExtractor.capture_dom`: any exception in the body is caught and
replaced by the empty mapping. -/
def capture_dom (s : ExtractorState) : JVal × ExtractorState :=
  match captureDomBody s with
  | .error (_, s') => (JVal.obj [], s')
  | .ok r => r

/-- Body of `capture_network` (the code inside its `try`): one
`Runtime.evaluate` round trip, then
`result.get("result", {}).get("value", {}).get("resources", [])`. -/
def captureNetworkBody (s : ExtractorState) :
    Except (String × ExtractorState) (JVal × ExtractorState) :=
  match send_command s "Runtime.evaluate" (some networkParams) with
  | (.error e, s1) => .error (e, s1)
  | (.ok r, s1) =>
    match (do
        let a ← jGet r "result" (JVal.obj [])
        let v ← jGet a "value" (JVal.obj [])
        jGet v "resources" (JVal.arr [])) with
    | .error e => .error (e, s1)
    | .ok res => .ok (res, s1)

/-- `WebDataExtractor.capture_network`: any exception in the body is caught
and replaced by the empty list. -/
def capture_network (s : ExtractorState) : JVal × ExtractorState :=
  match captureNetworkBody s with
  | .error (_, s') => (JVal.arr [], s')
  | .ok r => r

/-- A full capture record (`capture_page`): page info, DOM snapshot and
network snapshot, assembled from the three sub-captures run in sequence. -/
structure CapturedPage where
  page_info : JVal
  dom : JVal
  network : JVal
  deriving Repr

/-- The orchestration inside the `capture_page` command: the three
sub-captures run unconditionally, in sequence, over the shared channel. -/
def capture_page (s : ExtractorState) : CapturedPage × ExtractorState :=
  let pi := capture_page_info s
  let dm := capture_dom pi.2
  let nt := capture_network dm.2
  (⟨pi.1, dm.1, nt.1⟩, nt.2)

/-! ## Claim theorem: capture failure isolation -/

/-- C8.  During a full page capture, an exception inside a sub-capture is
caught at that sub-capture's boundary and replaced with its empty sentinel
(empty mapping for page info and DOM, empty list for network), and the
remaining sub-captures still execute on the state the failed one left
behind — a failure in one sub-capture never aborts the whole capture. -/
theorem c8_capture_failure_isolation (s : ExtractorState) :
    (∀ e s', capturePageInfoBody s = .error (e, s') →
      (capture_page s).1.page_info = JVal.obj [] ∧
      (capture_page s).1.dom = (capture_dom s').1 ∧
      (capture_page s).1.network = (capture_network (capture_dom s').2).1) ∧
    (∀ e s', captureDomBody (capture_page_info s).2 = .error (e, s') →
      (capture_page s).1.dom = JVal.obj [] ∧
      (capture_page s).1.network = (capture_network s').1) ∧
    (∀ e s', captureNetworkBody (capture_dom (capture_page_info s).2).2 = .error (e, s') →
      (capture_page s).1.network = JVal.arr []) := by
  refine ⟨?_, ?_, ?_⟩ <;> intro e s' h
  · simp [capture_page, capture_page_info, h]
  · simp [capture_page, capture_dom, h]
  · simp [capture_page, capture_network, h]

/-- A transport whose every inbound message is JSON `null`: every
sub-capture body fails at its shape-access step. -/
def c8NullStream : Nat → JVal := fun _ => JVal.null

/-- A freshly connected extractor over the all-null transport. -/
def c8NullState : ExtractorState := ⟨0, some c8NullStream, 0, []⟩

/-- Witness for C8: on the all-null transport the network sub-capture body
fails after the DOM sub-capture already failed, yet the full capture still
produces the empty-list sentinel for the network field. -/
theorem c8_capture_failure_isolation_witness :
    (capture_page c8NullState).1.network = JVal.arr [] :=
  (c8_capture_failure_isolation c8NullState).2.2
    "AttributeError: no attribute get"
    ⟨3, some c8NullStream, 3,
      [⟨1, "Runtime.evaluate", pageInfoParams⟩,
       ⟨2, "DOM.getDocument", JVal.obj []⟩,
       ⟨3, "Runtime.evaluate", networkParams⟩]⟩
    rfl

/-! ## Remote command interpreter (`execute_selenium_command`)

The interpreter splits the command string on whitespace, lowercases the
verb and dispatches over a fixed verb set against a Selenium driver handle,
with an evaluate-raw-call fallback for unknown verbs; the whole body sits
in one `try/except` returning `"Error: ..."` strings.  JavaScript payloads
handed to `execute_script` are again abbreviated to descriptive strings. -/

/-- The whitespace set of Python `str.split()`. -/
def isPySpace (c : Char) : Bool :=
  c = ' ' || c = '\t' || c = '\n' || c = '\r' || c = '\x0b' || c = '\x0c'

/-- Worker for Python `str.split()`: accumulate the current word
(reversed), emitting it at each whitespace run. -/
def splitWsAux : List Char → List Char → List (List Char)
  | [], acc => if acc.isEmpty then [] else [acc.reverse]
  | c :: cs, acc =>
    if isPySpace c then
      if acc.isEmpty then splitWsAux cs [] else acc.reverse :: splitWsAux cs []
    else splitWsAux cs (c :: acc)

/-- Python `command.split()`: split on whitespace runs, no empty words. -/
def pySplit (str : String) : List String :=
  (splitWsAux str.toList []).map (fun w => String.mk w)

/-- Python `str.lower()` (ASCII case fold). -/
def lowerStr (str : String) : String := String.mk (str.toList.map Char.toLower)

/-- The single-quote character, as a string. -/
def squote : String := String.mk [Char.ofNat 39]

/-- Quote characters stripped by `.strip()` with a double and a single
quote. -/
def isQuoteChar (c : Char) : Bool := c = '"' || c = Char.ofNat 39

/-- Python `str.strip(chars)`: drop matching characters from both ends. -/
def stripCharsList (p : Char → Bool) (l : List Char) : List Char :=
  ((l.dropWhile p).reverse.dropWhile p).reverse

/-- `s.strip(quotes)`. -/
def pyStripQuotes (str : String) : String := String.mk (stripCharsList isQuoteChar str.toList)

/-- `s.strip()` (whitespace). -/
def pyStripWs (str : String) : String := String.mk (stripCharsList isPySpace str.toList)

/-- Python `s.split(",", 1)` when a comma is present: the part before the
first comma and everything after it. -/
def pySplitAtComma (str : String) : String × String :=
  let l := str.toList
  (String.mk (l.takeWhile (fun c => !(c = ','))),
   String.mk ((l.dropWhile (fun c => !(c = ','))).drop 1))

/-- Python truthiness of a JSON-shaped value. -/
def jTruthy : JVal → Bool
  | .null => false
  | .b v => v
  | .n i => !(i = 0)
  | .s st => !(st = "")
  | .arr l => !l.isEmpty
  | .obj l => !l.isEmpty

/-- Python `int(str)`: optional surrounding whitespace and sign, then
decimal digits; raises ValueError otherwise. -/
def pyParseInt (str : String) : Except String Int :=
  let t := (pyStripWs str).toList
  let signAndDigits : Bool × List Char :=
    match t with
    | '-' :: rest => (true, rest)
    | '+' :: rest => (false, rest)
    | _ => (false, t)
  if signAndDigits.2.isEmpty || !(signAndDigits.2.all Char.isDigit) then
    .error ("invalid literal for int() with base 10: " ++ str)
  else
    let magnitude : Nat := signAndDigits.2.foldl (fun acc c => acc * 10 + (c.toNat - 48)) 0
    .ok (if signAndDigits.1 then -(magnitude : Int) else (magnitude : Int))

/-- Selenium locator strategies admitted by the `find_element` verb. -/
inductive By where
  | id | class_name | css_selector | xpath | tag_name | name
  deriving DecidableEq, Repr

/-- The `by_map` table of the `find_element` verb. -/
def byFromString : String → Option By
  | "By.ID" => some .id
  | "By.CLASS_NAME" => some .class_name
  | "By.CSS_SELECTOR" => some .css_selector
  | "By.XPATH" => some .xpath
  | "By.TAG_NAME" => some .tag_name
  | "By.NAME" => some .name
  | _ => none

/-- A located page element (only its tag name is observed). -/
structure Element where
  tag_name : String
  deriving DecidableEq, Repr

/-- The Selenium driver handle, as an oracle: every operation may raise,
modelled by `Except`.  Repeated attribute reads (e.g. `page_source`) return
the same value.  `pilAvailable` models whether the PIL image library can be
imported.  `rawEval` is the `eval`-on-driver escape hatch. -/
structure Driver where
  get : String → Except String Unit
  current_url : Except String String
  title : Except String String
  page_source : Except String String
  execute_script : String → Except String JVal
  find_element : By → String → Except String Element
  elementClick : Element → Except String Unit
  elementSendKeys : Element → String → Except String Unit
  get_log : String → Except String (List JVal)
  save_screenshot : String → Except String Unit
  get_window_size : Except String JVal
  back : Except String Unit
  forward : Except String Unit
  refresh : Except String Unit
  close : Except String Unit
  pilAvailable : Bool
  rawEval : String → Except String JVal

/-- One observable driver invocation, for counting calls. -/
inductive DriverCall where
  | get (url : String)
  | currentUrl
  | title
  | pageSource
  | executeScript (script : String)
  | findElement (b : By) (value : String)
  | elementClick
  | elementSendKeys (text : String)
  | getLog (logType : String)
  | saveScreenshot (path : String)
  | windowSize
  | back
  | forward
  | refresh
  | close
  | rawEval (cmd : String)
  deriving DecidableEq, Repr

/-- The interface-state collection script of auto-capture (abbreviated). -/
def interfaceStateScript : String :=
  "collect url, title, readyState, forms, buttons, links, errors, pageText"

/-- The scroll-to-bottom script (abbreviated). -/
def scrollToBottomScript : String :=
  "smart scroll to bottom returning scrollHeight, clientHeight, canScroll"

/-- The scroll-info script (abbreviated). -/
def scrollInfoScript : String :=
  "return scrollTop, scrollHeight, clientHeight, canScroll, atBottom"

/-- The readiness poll script of `wait_for_load`. -/
def readyStateScript : String := "return document.readyState === complete"

/-- Leading text of the `smart_scroll` script around the amount. -/
def smartScrollScriptPre : String := "scroll by "

/-- Trailing text of the `smart_scroll` script around the amount. -/
def smartScrollScriptPost : String := " with content detection"

/-- The polling loop of `wait_for_load`: up to the given number of
half-second checks, evaluate the readiness script; returns whether the page
loaded and how many polls were issued, or the first raised error with the
poll count. -/
def waitLoop (d : Driver) : Nat → Except (String × Nat) (Bool × Nat)
  | 0 => .ok (false, 0)
  | n + 1 =>
    match d.execute_script readyStateScript with
    | .error e => .error (e, 1)
    | .ok v =>
      if jTruthy v then .ok (true, 1)
      else
        match waitLoop d n with
        | .error (e, k) => .error (e, k + 1)
        | .ok (b, k) => .ok (b, k + 1)

/-- The auto-capture block inside the `get` verb (the inner `try`): settle
delay, interface-state script, screenshot (converted to JPEG when PIL is
available), composite result; any failure degrades to the bare navigation
status annotated with the reason. -/
def getAutoCapture (d : Driver) (url : String) (calls : List DriverCall) :
    Option JVal × List DriverCall :=
  match d.execute_script interfaceStateScript with
  | .error e =>
    (some (.s ("Navigated to: " ++ url ++ " (auto-capture failed: " ++ e ++ ")")),
     calls ++ [.executeScript interfaceStateScript])
  | .ok st =>
    match d.save_screenshot "data/current-interface.png" with
    | .error e =>
      (some (.s ("Navigated to: " ++ url ++ " (auto-capture failed: " ++ e ++ ")")),
       calls ++ [.executeScript interfaceStateScript, .saveScreenshot "data/current-interface.png"])
    | .ok _ =>
      let path := if d.pilAvailable then "data/current-interface.jpg"
                  else "data/current-interface.png"
      (some (.obj
          [("navigation", .s ("Navigated to: " ++ url)),
           ("screenshot", .s path),
           ("interface_state", st)]),
       calls ++ [.executeScript interfaceStateScript, .saveScreenshot "data/current-interface.png"])

/-- The body of `execute_selenium_command` (the code inside its outer
`try`): parse, dispatch on the lowercased verb, call the driver.  An error
result stands for an exception escaping a verb handler, carrying the calls
already issued. -/
def execBody (d : Driver) (command : String) (auto_capture : Bool) :
    Except (String × List DriverCall) (Option JVal × List DriverCall) :=
  match pySplit command with
  | [] => .ok (none, [])
  | cmd0 :: args =>
    let cmd := lowerStr cmd0
    if cmd = "get" then
      let url := args.headD ""
      match d.get url with
      | .error e => .error (e, [.get url])
      | .ok _ =>
        if auto_capture then .ok (getAutoCapture d url [.get url])
        else .ok (some (.s ("Navigated to: " ++ url)), [.get url])
    else if cmd = "current_url" then
      match d.current_url with
      | .error e => .error (e, [.currentUrl])
      | .ok u => .ok (some (.s u), [.currentUrl])
    else if cmd = "title" then
      match d.title with
      | .error e => .error (e, [.title])
      | .ok t => .ok (some (.s t), [.title])
    else if cmd = "page_source" then
      match d.page_source with
      | .error e => .error (e, [.pageSource])
      | .ok ps =>
        if 1000 < ps.length then
          .ok (some (.s (String.mk (ps.toList.take 1000) ++ "...")), [.pageSource])
        else .ok (some (.s ps), [.pageSource])
    else if cmd = "execute_script" then
      let script := String.intercalate " " args
      match d.execute_script script with
      | .error e => .error (e, [.executeScript script])
      | .ok v => .ok (some v, [.executeScript script])
    else if cmd = "find_element" then
      if args.isEmpty then .ok (some (.s "Invalid find_element syntax"), [])
      else
        let by_and_value := pyStripQuotes (String.intercalate " " args)
        if by_and_value.contains ',' then
          let parts := pySplitAtComma by_and_value
          let by_part := pyStripWs parts.1
          let value_part := pyStripQuotes (pyStripWs parts.2)
          match byFromString by_part with
          | some b =>
            match d.find_element b value_part with
            | .error e => .error (e, [.findElement b value_part])
            | .ok el =>
              .ok (some (.s ("Found element: " ++ el.tag_name)), [.findElement b value_part])
          | none => .ok (some (.s "Invalid find_element syntax"), [])
        else .ok (some (.s "Invalid find_element syntax"), [])
    else if cmd = "click" then
      if args.isEmpty then .ok (some (.s "No selector provided"), [])
      else
        let selector := pyStripQuotes (args.headD "")
        match d.find_element .css_selector selector with
        | .error e => .error (e, [.findElement .css_selector selector])
        | .ok el =>
          match d.elementClick el with
          | .error e => .error (e, [.findElement .css_selector selector, .elementClick])
          | .ok _ =>
            .ok (some (.s ("Clicked element: " ++ selector)),
                 [.findElement .css_selector selector, .elementClick])
    else if cmd = "send_keys" then
      if args.length < 2 then .ok (some (.s "Invalid send_keys syntax"), [])
      else
        let selector := pyStripQuotes (args.headD "")
        let text := pyStripQuotes (String.intercalate " " args.tail)
        match d.find_element .css_selector selector with
        | .error e => .error (e, [.findElement .css_selector selector])
        | .ok el =>
          match d.elementSendKeys el text with
          | .error e =>
            .error (e, [.findElement .css_selector selector, .elementSendKeys text])
          | .ok _ =>
            .ok (some (.s ("Typed " ++ squote ++ text ++ squote ++ " into " ++ selector)),
                 [.findElement .css_selector selector, .elementSendKeys text])
    else if cmd = "get_log" then
      let log_type := args.headD "browser"
      match d.get_log log_type with
      | .error e => .error (e, [.getLog log_type])
      | .ok logs => .ok (some (.arr (logs.take 10)), [.getLog log_type])
    else if cmd = "save_screenshot" then
      let filename := args.headD "screenshot.png"
      let filepath := "data/" ++ filename
      match d.save_screenshot filepath with
      | .error e => .error (e, [.saveScreenshot filepath])
      | .ok _ => .ok (some (.s ("Screenshot saved: " ++ filepath)), [.saveScreenshot filepath])
    else if cmd = "window_size" then
      match d.get_window_size with
      | .error e => .error (e, [.windowSize])
      | .ok v => .ok (some v, [.windowSize])
    else if cmd = "back" then
      match d.back with
      | .error e => .error (e, [.back])
      | .ok _ => .ok (some (.s "Navigated back"), [.back])
    else if cmd = "forward" then
      match d.forward with
      | .error e => .error (e, [.forward])
      | .ok _ => .ok (some (.s "Navigated forward"), [.forward])
    else if cmd = "refresh" then
      match d.refresh with
      | .error e => .error (e, [.refresh])
      | .ok _ => .ok (some (.s "Page refreshed"), [.refresh])
    else if cmd = "close" then
      match d.close with
      | .error e => .error (e, [.close])
      | .ok _ => .ok (some (.s "Window closed"), [.close])
    else if cmd = "scroll_to_bottom" then
      match d.execute_script scrollToBottomScript with
      | .error e => .error (e, [.executeScript scrollToBottomScript])
      | .ok v => .ok (some v, [.executeScript scrollToBottomScript])
    else if cmd = "scroll_info" then
      match d.execute_script scrollInfoScript with
      | .error e => .error (e, [.executeScript scrollInfoScript])
      | .ok v => .ok (some v, [.executeScript scrollInfoScript])
    else if cmd = "wait_for_load" then
      match (match args with
             | [] => (.ok (10 : Int) : Except String Int)
             | a :: _ => pyParseInt a) with
      | .error e => .error (e, [])
      | .ok t =>
        match waitLoop d (2 * t).toNat with
        | .error (e, k) => .error (e, List.replicate k (.executeScript readyStateScript))
        | .ok (true, k) =>
          .ok (some (.s "Page loaded"), List.replicate k (.executeScript readyStateScript))
        | .ok (false, k) =>
          .ok (some (.s ("Page load timeout after " ++ toString t ++ " seconds")),
               List.replicate k (.executeScript readyStateScript))
    else if cmd = "smart_scroll" then
      match (match args with
             | [] => (.ok (1000 : Int) : Except String Int)
             | a :: _ => pyParseInt a) with
      | .error e => .error (e, [])
      | .ok amount =>
        let script := smartScrollScriptPre ++ toString amount ++ smartScrollScriptPost
        match d.execute_script script with
        | .error e => .error (e, [.executeScript script])
        | .ok v => .ok (some v, [.executeScript script])
    else
      match d.rawEval command with
      | .ok v => .ok (some v, [.rawEval command])
      | .error _ =>
        .ok (some (.s ("Unknown command: " ++ cmd ++
              ". Try: get, title, execute_script, scroll_info, smart_scroll, etc.")),
             [.rawEval command])

set_option linter.unusedVariables false in
/-- `execute_selenium_command`: the whole body sits inside one
`try/except Exception`, so an exception escaping a verb handler is returned
as an `"Error: ..."` string; alongside the result, the list of driver calls
issued is reported.  The `timeout` parameter is accepted but — as in the
source, whose `wait_for_load` branch shadows it — never read. -/
def execute_selenium_command (d : Driver) (command : String) (timeout : Int)
    (auto_capture : Bool) : Option JVal × List DriverCall :=
  match execBody d command auto_capture with
  | .ok r => r
  | .error (e, calls) => (some (.s ("Error: " ++ e)), calls)

/-- The closed verb set of the interpreter. -/
def knownVerbs : List String :=
  ["get", "current_url", "title", "page_source", "execute_script", "find_element",
   "click", "send_keys", "get_log", "save_screenshot", "window_size", "back",
   "forward", "refresh", "close", "scroll_to_bottom", "scroll_info",
   "wait_for_load", "smart_scroll"]

/-! ## Interpreter lemmas -/

theorem splitWsAux_get_word (l : List Char) :
    splitWsAux ('g' :: 'e' :: 't' :: ' ' :: l) [] = ['g', 'e', 't'] :: splitWsAux l [] := rfl

theorem splitWsAux_no_space (l : List Char) (h : ∀ c ∈ l, isPySpace c = false) :
    ∀ acc : List Char,
      splitWsAux l acc = if (acc.reverse ++ l).isEmpty then [] else [acc.reverse ++ l] := by
  induction l with
  | nil =>
    intro acc
    cases acc <;> simp [splitWsAux]
  | cons c cs ih =>
    intro acc
    have hc : isPySpace c = false := h c (by simp)
    have hcs : ∀ x ∈ cs, isPySpace x = false := fun x hx => h x (by simp [hx])
    rw [show splitWsAux (c :: cs) acc
        = if isPySpace c then
            (if acc.isEmpty then splitWsAux cs [] else acc.reverse :: splitWsAux cs [])
          else splitWsAux cs (c :: acc) from rfl, hc]
    simp only [Bool.false_eq_true, if_false]
    rw [ih hcs (c :: acc)]
    simp [List.append_assoc]

theorem pySplit_get (url : String) (hne : url ≠ "")
    (hns : ∀ c ∈ url.toList, isPySpace c = false) :
    pySplit ("get " ++ url) = ["get", url] := by
  have hd : url.data ≠ [] := fun hnil => hne (congrArg String.mk hnil)
  show (splitWsAux ("get " ++ url).toList []).map (fun w => String.mk w) = _
  rw [show ("get " ++ url).toList = 'g' :: 'e' :: 't' :: ' ' :: url.toList from rfl,
    splitWsAux_get_word, splitWsAux_no_space url.toList hns []]
  simp [hd]

/-! ## Claim theorems: remote command interpreter -/

/-- C9.  `get <url>` with auto-capture disabled navigates and returns the
literal string `"Navigated to: <url>"`, issuing exactly one driver call —
the navigation. -/
theorem c9_get_single_call (d : Driver) (url : String) (timeout : Int)
    (hne : url ≠ "") (hns : ∀ c ∈ url.toList, isPySpace c = false)
    (hok : d.get url = .ok ()) :
    execute_selenium_command d ("get " ++ url) timeout false
      = (some (.s ("Navigated to: " ++ url)), [.get url]) := by
  unfold execute_selenium_command execBody
  rw [pySplit_get url hne hns]
  simp [hok, show lowerStr "get" = "get" from rfl]

/-- A concrete driver whose navigation succeeds and whose `eval` escape
hatch has nothing to offer. -/
def okDriver : Driver where
  get := fun _ => .ok ()
  current_url := .ok "about:blank"
  title := .ok ""
  page_source := .ok ""
  execute_script := fun _ => .ok JVal.null
  find_element := fun _ _ => .ok ⟨"div"⟩
  elementClick := fun _ => .ok ()
  elementSendKeys := fun _ _ => .ok ()
  get_log := fun _ => .ok []
  save_screenshot := fun _ => .ok ()
  get_window_size := .ok (JVal.obj [])
  back := .ok ()
  forward := .ok ()
  refresh := .ok ()
  close := .ok ()
  pilAvailable := false
  rawEval := fun _ => .error "driver has no such attribute"

/-- Witness for C9 at the spec's example command. -/
theorem c9_get_single_call_witness :
    execute_selenium_command okDriver "get https://example.com" 10 false
      = (some (.s "Navigated to: https://example.com"),
         [.get "https://example.com"]) :=
  c9_get_single_call okDriver "https://example.com" 10 (by decide) (by decide) rfl

/-- C10.  `execute_selenium_command` is total at its boundary: every call
returns a value (by the type of the embedding) — the empty command string
yields `None` with no driver call; an exception escaping a verb handler
(an `.error` body) is returned as a string beginning `"Error: "`; and an
unrecognized verb whose raw-eval fallback also fails yields the
`"Unknown command"` message string rather than raising. -/
theorem c10_execute_selenium_total :
    (∀ (d : Driver) (timeout : Int) (auto_capture : Bool),
      execute_selenium_command d "" timeout auto_capture = (none, [])) ∧
    (∀ (d : Driver) (command : String) (timeout : Int) (auto_capture : Bool)
        (e : String) (calls : List DriverCall),
      execBody d command auto_capture = .error (e, calls) →
      execute_selenium_command d command timeout auto_capture
        = (some (.s ("Error: " ++ e)), calls)) ∧
    (∀ (d : Driver) (command : String) (timeout : Int) (auto_capture : Bool)
        (cmd0 : String) (args : List String) (e : String),
      pySplit command = cmd0 :: args →
      lowerStr cmd0 ∉ knownVerbs →
      d.rawEval command = .error e →
      execute_selenium_command d command timeout auto_capture
        = (some (.s ("Unknown command: " ++ lowerStr cmd0 ++
            ". Try: get, title, execute_script, scroll_info, smart_scroll, etc.")),
           [.rawEval command])) := by
  refine ⟨fun d timeout auto_capture => rfl, ?_, ?_⟩
  · intro d command timeout auto_capture e calls h
    unfold execute_selenium_command
    rw [h]
  · intro d command timeout auto_capture cmd0 args e hsplit hmem herr
    simp only [knownVerbs, List.mem_cons, List.not_mem_nil, or_false, not_or] at hmem
    obtain ⟨h1, h2, h3, h4, h5, h6, h7, h8, h9, h10, h11, h12, h13, h14, h15,
      h16, h17, h18, h19⟩ := hmem
    unfold execute_selenium_command execBody
    rw [hsplit]
    simp [h1, h2, h3, h4, h5, h6, h7, h8, h9, h10, h11, h12, h13, h14, h15,
      h16, h17, h18, h19, herr]

/-- Witness for C10: the unknown verb `frobnicate` on a driver whose eval
fallback fails produces the unknown-command message. -/
theorem c10_execute_selenium_total_witness :
    execute_selenium_command okDriver "frobnicate" 10 true
      = (some (.s ("Unknown command: frobnicate. Try: get, title, execute_script, scroll_info, smart_scroll, etc.")),
         [.rawEval "frobnicate"]) :=
  c10_execute_selenium_total.2.2 okDriver "frobnicate" 10 true "frobnicate" []
    "driver has no such attribute" rfl (by decide) rfl
